import Mathlib

/-!
Shallow embedding of the press-disambiguation state machine of the `Input`
class (button-input component of ux-proto-tools): the `_click` state record,
the option defaults and constructor merge, `down`, `up`/`_release`, and the
per-frame `_press_check_loop` body (modelled as an explicit `tick now`).
Timestamps are integers standing for `Date.now()` values, passed explicitly.
Each operation returns the successor state together with the list of press
events handed to `_handle_press` during the call, in order.
-/

namespace UxProto

/-- The classified press kinds handed to the `fire` callback. -/
inductive Press where
  | single
  | double
  | long
deriving DecidableEq, Repr

/-- The merged `this.opts` record, restricted to the fields the classifier
reads. `repeat_enabled` is `Option Bool` because no default defines it: it is
`undefined` (`none`) unless the user passed it or `set_repeat_press` ran. -/
structure Opts where
  double_press_enabled : Bool
  long_press_enabled : Bool
  long_press_threshold : Int
  double_press_threshold : Int
  repeat_press_enabled : Bool
  repeat_fire_immediate : Bool
  repeat_override_long : Bool
  repeat_init_delay : Int
  repeat_interval : Int
  repeat_enabled : Option Bool
deriving DecidableEq, Repr

/-- JS truthiness of `this.opts.repeat_enabled`: `undefined` is falsy. -/
def Opts.repeatOn (o : Opts) : Bool := o.repeat_enabled.getD false

/-- User-supplied constructor options: every field may be absent
(`undefined`). Fields the classifier never reads (fire, dom, key,
pressed_class, discrete_keys, discrete_keys_animate) are omitted. -/
structure UserOpts where
  has_double_press : Option Bool := none
  double_press_enabled : Option Bool := none
  long_press_enabled : Option Bool := none
  long_press_threshold : Option Int := none
  double_press_threshold : Option Int := none
  repeat_press_enabled : Option Bool := none
  repeat_fire_immediate : Option Bool := none
  repeat_override_long : Option Bool := none
  repeat_init_delay : Option Int := none
  repeat_interval : Option Int := none
  repeat_enabled : Option Bool := none
deriving DecidableEq, Repr

/-- The constructor body: `this.opts = \x7b...this._default_opts, ...opts\x7d`
followed by the backwards-compatibility override of `double_press_enabled`
when the raw user opts carry `has_double_press`. There is no validation of
any kind: every option set is accepted as given. -/
def mkOpts (u : UserOpts) : Opts :=
  let merged : Opts :=
    { double_press_enabled := u.double_press_enabled.getD true
      long_press_enabled := u.long_press_enabled.getD true
      long_press_threshold := u.long_press_threshold.getD 500
      double_press_threshold := u.double_press_threshold.getD 100
      repeat_press_enabled := u.repeat_press_enabled.getD false
      repeat_fire_immediate := u.repeat_fire_immediate.getD true
      repeat_override_long := u.repeat_override_long.getD true
      repeat_init_delay := u.repeat_init_delay.getD 600
      repeat_interval := u.repeat_interval.getD 130
      repeat_enabled := u.repeat_enabled }
  match u.has_double_press with
  | some b => { merged with double_press_enabled := b }
  | none => merged

/-- The `_click` record, with exactly the five fields the source declares. -/
structure Click where
  last_press : Int
  long_press_fired : Bool
  half_double_press_fired : Bool
  half_double_press : Int
  pressed : Bool
deriving DecidableEq, Repr

/-- The initial `_click` value from the class-field initializer. -/
def initClick : Click :=
  { last_press := 0
    long_press_fired := false
    half_double_press_fired := false
    half_double_press := 0
    pressed := false }

/-- One `Input` instance: merged options, click state, and whether a repeat
`setTimeout` handle is currently armed (`_repeat_timer`). -/
structure Input where
  opts : Opts
  click : Click
  repeat_timer_armed : Bool
deriving DecidableEq, Repr

/-- A freshly constructed instance. -/
def mkInput (u : UserOpts) : Input :=
  { opts := mkOpts u, click := initClick, repeat_timer_armed := false }

/-- An instance with given merged options and zeroed click state. -/
def initInput (o : Opts) : Input :=
  { opts := o, click := initClick, repeat_timer_armed := false }

/-- `down()`: runs `_press()` (record `last_press = now`, set `pressed`),
then, if `opts.repeat_enabled` is truthy, optionally fires an immediate
`single` (when `repeat_fire_immediate`) and arms the repeat init timer. -/
def down (now : Int) (i : Input) : Input × List Press :=
  let c := { i.click with last_press := now, pressed := true }
  if i.opts.repeatOn then
    ({ i with click := c, repeat_timer_armed := true },
      if i.opts.repeat_fire_immediate then [Press.single] else [])
  else
    ({ i with click := c }, [])

/-- `_release(do_checks)`: clears `pressed`; when `do_checks` is set, runs the
release resolution.  The double-press branch guard reads
`this._click.long_press_enabled`, a property that does not exist on `_click`
(the flag lives on `opts`), so in JS it evaluates to `undefined` (falsy) and
the guard is identically true; the embedding keeps that read as the constant
`click_long_press_enabled := false`.  `long_press_fired` is cleared only
inside the `do_checks` branch. -/
def release (now : Int) (do_checks : Bool) (i : Input) : Input × List Press :=
  let c := { i.click with pressed := false }
  if do_checks then
    if !i.opts.double_press_enabled then
      if !c.long_press_fired && !(i.opts.repeatOn && i.opts.repeat_fire_immediate) then
        ({ i with click := { c with long_press_fired := false } }, [Press.single])
      else
        ({ i with click := { c with long_press_fired := false } }, [])
    else
      let click_long_press_enabled : Bool := false
      if !click_long_press_enabled || (click_long_press_enabled && !c.long_press_fired) then
        if c.half_double_press_fired then
          ({ i with click :=
              { c with
                  half_double_press_fired := false
                  long_press_fired := false } },
            [Press.double])
        else
          ({ i with click :=
              { c with
                  half_double_press := now
                  half_double_press_fired := true
                  long_press_fired := false } }, [])
      else
        ({ i with click := { c with long_press_fired := false } }, [])
  else
    ({ i with click := c }, [])

/-- The spec-level `up(now, runChecks)`.  `runChecks = true` is the public
`up()`: `_release()` followed by `clearTimeout(this._repeat_timer)`.
`runChecks = false` is the abandoned-interaction path
(`_listener_mouseout` calling `_release(false)`), which in the source does
not clear the repeat timer. -/
def up (now : Int) (runChecks : Bool) (i : Input) : Input × List Press :=
  if runChecks then
    let r := release now true i
    ({ r.1 with repeat_timer_armed := false }, r.2)
  else
    release now false i

/-- The body of `_press_check_loop` at time `now` (one tick): first the
pending-double timeout check (only while not pressed), then the long-press
timeout check (only while pressed), in source order. -/
def tick (now : Int) (i : Input) : Input × List Press :=
  let p1 :=
    if !i.click.pressed && i.opts.double_press_enabled
        && i.click.half_double_press_fired
        && decide (now > i.click.half_double_press + i.opts.double_press_threshold) then
      ({ i.click with half_double_press_fired := false }, [Press.single])
    else
      (i.click, ([] : List Press))
  let c1 := p1.1
  let p2 :=
    if c1.pressed && decide (now > c1.last_press + i.opts.long_press_threshold)
        && !c1.long_press_fired && i.opts.long_press_enabled then
      ({ c1 with long_press_fired := true },
        if !(i.opts.repeatOn && i.opts.repeat_override_long) then [Press.long]
        else ([] : List Press))
    else
      (c1, ([] : List Press))
  ({ i with click := p2.1 }, p1.2 ++ p2.2)

/-- `set_repeat_press(is_repeat_press)`: assigns `opts.repeat_enabled`. -/
def set_repeat_press (b : Bool) (i : Input) : Input :=
  { i with opts := { i.opts with repeat_enabled := some b } }

/-- `enable_repeat()`. -/
def enable_repeat (i : Input) : Input := set_repeat_press true i

/-- `disable_repeat()`. -/
def disable_repeat (i : Input) : Input := set_repeat_press false i

/-- `set_long_press(is_long_press)`. -/
def set_long_press (b : Bool) (i : Input) : Input :=
  { i with opts := { i.opts with long_press_enabled := b } }

/-- One externally driven action on an instance. -/
inductive Act where
  | down (now : Int)
  | up (now : Int) (runChecks : Bool)
  | tick (now : Int)
deriving DecidableEq, Repr

/-- Dispatch one action. -/
def stepA : Act → Input → Input × List Press
  | .down t, i => down t i
  | .up t rc, i => up t rc i
  | .tick t, i => tick t i

/-- Run a sequence of actions, accumulating emitted events in order. -/
def run : List Act → Input → Input × List Press
  | [], i => (i, [])
  | a :: rest, i =>
    ((run rest (stepA a i).1).1, (stepA a i).2 ++ (run rest (stepA a i).1).2)

/-- Unfolding lemma for `run` on a cons cell. -/
lemma run_cons (a : Act) (rest : List Act) (i : Input) :
    run (a :: rest) i =
      ((run rest (stepA a i).1).1, (stepA a i).2 ++ (run rest (stepA a i).1).2) := rfl

/-- A tick while held, before the long-press threshold, does nothing. -/
lemma tick_skip_held (i : Input) (t : Int)
    (hp : i.click.pressed = true)
    (ht : ¬ t > i.click.last_press + i.opts.long_press_threshold) :
    tick t i = (i, []) := by
  simp [tick, hp, ht]

/-- A tick while held does nothing once the long press has fired. -/
lemma tick_skip_held_fired (i : Input) (t : Int)
    (hp : i.click.pressed = true)
    (hf : i.click.long_press_fired = true) :
    tick t i = (i, []) := by
  simp [tick, hp, hf]

/-- A tick while idle with no pending half-double-press does nothing. -/
lemma tick_skip_idle (i : Input) (t : Int)
    (hp : i.click.pressed = false)
    (hh : i.click.half_double_press_fired = false) :
    tick t i = (i, []) := by
  simp [tick, hp, hh]

/-- A tick while a half-double-press is pending does nothing before the
double-press window closes. -/
lemma tick_skip_waiting (i : Input) (t : Int)
    (hp : i.click.pressed = false)
    (ht : ¬ t > i.click.half_double_press + i.opts.double_press_threshold) :
    tick t i = (i, []) := by
  simp [tick, hp, ht]

/-- A block of no-op ticks can be dropped from the front of a run. -/
lemma run_ticks_skip (ts : List Int) (rest : List Act) (i : Input)
    (h : ∀ t ∈ ts, tick t i = (i, [])) :
    run (ts.map Act.tick ++ rest) i = run rest i := by
  induction ts with
  | nil => rfl
  | cons t ts ih =>
    have h1 : stepA (Act.tick t) i = (i, []) := h t (List.mem_cons_self t ts)
    simp only [List.map_cons, List.cons_append, run_cons, h1, List.nil_append]
    rw [ih fun t ht => h t (List.mem_cons_of_mem _ ht)]

/-- A tick while held does nothing when long press is disabled or the
threshold has not yet been crossed. -/
lemma tick_skip_held_cond (i : Input) (t : Int)
    (hp : i.click.pressed = true)
    (h : i.opts.long_press_enabled = true →
      ¬ t > i.click.last_press + i.opts.long_press_threshold) :
    tick t i = (i, []) := by
  cases hen : i.opts.long_press_enabled with
  | false => simp [tick, hp, hen]
  | true => simp [tick, hp, hen, h hen]

/-- A block of no-op ticks runs to the same state with no events. -/
lemma run_ticks_noop (ts : List Int) (i : Input)
    (h : ∀ t ∈ ts, tick t i = (i, [])) :
    run (ts.map Act.tick) i = (i, []) := by
  induction ts with
  | nil => rfl
  | cons t ts ih =>
    have h1 : stepA (Act.tick t) i = (i, []) := h t (List.mem_cons_self t ts)
    simp only [List.map_cons, run_cons, h1, List.nil_append]
    rw [ih fun t ht => h t (List.mem_cons_of_mem _ ht)]

/-- Ticks after the long press has fired leave a held state untouched. -/
lemma run_ticks_held_fired (ts : List Int) (i : Input)
    (hp : i.click.pressed = true) (hf : i.click.long_press_fired = true) :
    run (ts.map Act.tick) i = (i, []) :=
  run_ticks_noop ts i fun t _ => tick_skip_held_fired i t hp hf

/-- While a button stays held, any block of ticks emits at most one `long`. -/
lemma run_ticks_held_long_count (ts : List Int) : ∀ i : Input,
    i.click.pressed = true →
    List.count Press.long (run (ts.map Act.tick) i).2 ≤ 1 := by
  induction ts with
  | nil =>
    intro i hp
    simp [run]
  | cons t ts ih =>
    intro i hp
    rw [List.map_cons, run_cons]
    by_cases hf : i.click.long_press_fired = true
    · have h1 : stepA (Act.tick t) i = (i, []) := tick_skip_held_fired i t hp hf
      rw [h1, run_ticks_held_fired ts i hp hf]
      simp
    · have hf' : i.click.long_press_fired = false := by simpa using hf
      by_cases hcond : (decide (t > i.click.last_press + i.opts.long_press_threshold)
          && i.opts.long_press_enabled) = true
      · have hp2 : ({ i with click := { i.click with long_press_fired := true } }
            : Input).click.pressed = true := hp
        have hf2 : ({ i with click := { i.click with long_press_fired := true } }
            : Input).click.long_press_fired = true := rfl
        by_cases hov : (i.opts.repeatOn && i.opts.repeat_override_long) = true
        · have h1 : stepA (Act.tick t) i =
              ({ i with click := { i.click with long_press_fired := true } }, []) := by
            simp [stepA, tick, hp, hf', hcond, hov]
          rw [h1, run_ticks_held_fired ts _ hp2 hf2]
          simp
        · have hov' : (i.opts.repeatOn && i.opts.repeat_override_long) = false := by
            simpa using hov
          have h1 : stepA (Act.tick t) i =
              ({ i with click := { i.click with long_press_fired := true } },
                [Press.long]) := by
            simp [stepA, tick, hp, hf', hcond, hov']
          rw [h1, run_ticks_held_fired ts _ hp2 hf2]
          simp
      · have hc' : (decide (t > i.click.last_press + i.opts.long_press_threshold)
            && i.opts.long_press_enabled) = false := by simpa using hcond
        have h1 : stepA (Act.tick t) i = (i, []) := by
          simp only [stepA]
          simp [tick, hp, hf', hc']
        rw [h1]
        simpa using ih i hp

/-- Claim C1: with the default configuration, a hold whose tick at 501 emits
exactly one `long` and which is cleanly released at 502 nonetheless produces a
further `single` at the tick at 700.  The release resolution reads the
nonexistent property `_click.long_press_enabled` (the flag lives on `opts`),
so the "have we already fired the longpress" guard never blocks and the
release of a long press still records a half-double-press, which the
pending-double timeout later resolves to `single`.  This refutes the claim
that no further event is emitted for that hold. -/
theorem C1_long_hold_emits_spurious_single :
    (run [Act.down 0, Act.tick 501, Act.up 502 true, Act.tick 700] (mkInput {})).2
      = [Press.long, Press.single] := rfl

/-- Claim C2 (counterexample): after a long press has fired, `up` with
`runChecks = false` emits nothing but leaves `long_press_fired` still true —
the source clears that flag only inside the `do_checks` branch, so the claim
that it is cleared to false is wrong. -/
theorem C2_counterexample_fired_not_cleared :
    ((run [Act.down 0, Act.tick 501] (mkInput {})).1.click.long_press_fired = true) ∧
    ((up 502 false (run [Act.down 0, Act.tick 501] (mkInput {})).1).2 = []) ∧
    ((up 502 false
        (run [Act.down 0, Act.tick 501] (mkInput {})).1).1.click.long_press_fired
      = true) :=
  ⟨rfl, rfl, rfl⟩

/-- Claim C2 (amended): for every state, `up` with `runChecks = false` emits
no event and sets `pressed` to false, leaving every other ClickState field —
including `long_press_fired` — unchanged. -/
theorem C2_amended_up_no_checks (now : Int) (i : Input) :
    (up now false i).2 = [] ∧
    (up now false i).1.click = { i.click with pressed := false } :=
  ⟨rfl, rfl⟩

/-- Options used to exhibit the release resolution firing without a press. -/
def uC3 : UserOpts := { double_press_enabled := some false }

/-- Claim C3 (counterexample): on a fresh instance with double-press disabled
(`pressed` is false, no `down` has ever occurred), calling `up` with
`runChecks = true` emits a spurious `single`, refuting the no-op claim. -/
theorem C3_counterexample_spurious_single :
    (mkInput uC3).click.pressed = false ∧
    (up 10 true (mkInput uC3)).2 = [Press.single] :=
  ⟨rfl, rfl⟩

/-- Claim C3 (amended): `up` with `runChecks = true` runs the full release
resolution even when `pressed` is already false; in particular, with
double-press disabled, no long press fired, and repeat-immediate not active,
it emits a spurious `single` rather than being a no-op. -/
theorem C3_amended_up_without_down (now : Int) (i : Input)
    (_hp : i.click.pressed = false)
    (hdp : i.opts.double_press_enabled = false)
    (hf : i.click.long_press_fired = false)
    (hr : (i.opts.repeatOn && i.opts.repeat_fire_immediate) = false) :
    (up now true i).2 = [Press.single] := by
  simp [up, release, hdp, hf, hr]

/-- Witness for the amended claim C3 at a concrete fresh instance. -/
theorem C3_amended_witness :
    (up 10 true (mkInput uC3)).2 = [Press.single] :=
  C3_amended_up_without_down 10 (mkInput uC3) rfl rfl rfl rfl

/-- Claim C4 (counterexample): with thresholds long 500 and double 100, after
`down` at 0 and `up` at 50 (half-double pending at 50), the ticks at 121 and
130 emit nothing and leave the pending flag set: the pending-double timeout
requires now > 50 + 100 = 150, and 121 and 130 are both below that, so the
claim that they emit `single` and clear the flag is wrong. -/
theorem C4_counterexample_ticks_before_window :
    ((run [Act.down 0, Act.up 50 true, Act.tick 121, Act.tick 130] (mkInput {})).2
      = []) ∧
    ((run [Act.down 0, Act.up 50 true, Act.tick 121, Act.tick 130]
        (mkInput {})).1.click.half_double_press_fired = true) :=
  ⟨rfl, rfl⟩

/-- Claim C4 (amended): in the same scenario the ticks at 121 and 130 emit
nothing, and only a tick past 150 = 50 + 100 (here at 151) emits `single` for
the pending first half and clears the pending flag, after which a later
`down` begins an independent interaction. -/
theorem C4_amended_tick_after_window :
    ((run [Act.down 0, Act.up 50 true, Act.tick 121, Act.tick 130, Act.tick 151]
        (mkInput {})).2 = [Press.single]) ∧
    ((run [Act.down 0, Act.up 50 true, Act.tick 121, Act.tick 130, Act.tick 151]
        (mkInput {})).1.click.half_double_press_fired = false) :=
  ⟨rfl, rfl⟩

/-- Claim C7: while pressed with long press enabled and not yet fired, a tick
past the threshold sets `long_press_fired` and emits `long`, except that when
repeat mode is on and configured to override the long press it emits nothing
while still marking the threshold as fired. -/
theorem C7_long_press_check (i : Input) (now : Int)
    (hp : i.click.pressed = true)
    (hen : i.opts.long_press_enabled = true)
    (hnf : i.click.long_press_fired = false)
    (ht : now > i.click.last_press + i.opts.long_press_threshold) :
    (tick now i).1.click.long_press_fired = true ∧
    (tick now i).2 =
      (if i.opts.repeatOn && i.opts.repeat_override_long then [] else [Press.long]) := by
  cases hov : (i.opts.repeatOn && i.opts.repeat_override_long) <;>
    simp [tick, hp, hen, hnf, ht, hov]

/-- State of a default instance immediately after a `down` at time 0. -/
def iC7 : Input := (down 0 (mkInput {})).1

/-- Witness for claim C7 at a concrete held state and tick time. -/
theorem C7_witness :
    (tick 501 iC7).1.click.long_press_fired = true ∧
    (tick 501 iC7).2 =
      (if iC7.opts.repeatOn && iC7.opts.repeat_override_long then []
        else [Press.long]) :=
  C7_long_press_check iC7 501 rfl rfl rfl (by decide)

/-- Claim C8: starting from any state, one `down` followed by an arbitrary
block of ticks (a continuous hold, no intervening `up`) emits at most one
`long`, however many ticks occur after the threshold is crossed. -/
theorem C8_at_most_one_long_per_hold (i : Input) (t0 : Int) (ts : List Int) :
    List.count Press.long (run (Act.down t0 :: ts.map Act.tick) i).2 ≤ 1 := by
  rw [run_cons]
  have hp : (stepA (Act.down t0) i).1.click.pressed = true := by
    cases hr : i.opts.repeatOn <;> simp [stepA, down, hr]
  have h2 : List.count Press.long (stepA (Act.down t0) i).2 = 0 := by
    cases hr : i.opts.repeatOn <;> cases hf : i.opts.repeat_fire_immediate <;>
      simp [stepA, down, hr, hf]
  simp only [List.count_append, h2, Nat.zero_add]
  exact run_ticks_held_long_count ts _ hp

/-- Claim C5: with double press enabled and repeat disabled, a sequence
down, up, down, up whose second press begins within the double-press window
after the first release, with tick blocks interleaved arbitrarily — subject
to no tick firing a long press during either hold — emits exactly one
`double` and zero `single`. -/
theorem C5_clean_double_press (o : Opts) (t0 t1 t2 t3 : Int)
    (ts1 ts2 ts3 ts4 : List Int)
    (hdp : o.double_press_enabled = true)
    (hro : o.repeatOn = false)
    (h1 : ∀ t ∈ ts1, o.long_press_enabled = true → t ≤ t0 + o.long_press_threshold)
    (h2 : ∀ t ∈ ts2, t ≤ t2)
    (hgap : t2 ≤ t1 + o.double_press_threshold)
    (h3 : ∀ t ∈ ts3, o.long_press_enabled = true → t ≤ t2 + o.long_press_threshold) :
    (run (Act.down t0 :: (ts1.map Act.tick ++ (Act.up t1 true :: (ts2.map Act.tick
        ++ (Act.down t2 :: (ts3.map Act.tick
        ++ (Act.up t3 true :: ts4.map Act.tick)))))))
      (initInput o)).2 = [Press.double] := by
  have s1 : stepA (Act.down t0) (initInput o)
      = (⟨o, ⟨t0, false, false, 0, true⟩, false⟩, []) := by
    simp [stepA, down, initInput, initClick, hro]
  have k1 : ∀ t ∈ ts1,
      tick t (⟨o, ⟨t0, false, false, 0, true⟩, false⟩ : Input)
        = (⟨o, ⟨t0, false, false, 0, true⟩, false⟩, []) := by
    intro t ht
    refine tick_skip_held_cond _ t rfl fun hen => ?_
    show ¬ t > t0 + o.long_press_threshold
    have := h1 t ht hen
    omega
  have s2 : stepA (Act.up t1 true) (⟨o, ⟨t0, false, false, 0, true⟩, false⟩ : Input)
      = (⟨o, ⟨t0, false, true, t1, false⟩, false⟩, []) := by
    simp [stepA, up, release, hdp]
  have k2 : ∀ t ∈ ts2,
      tick t (⟨o, ⟨t0, false, true, t1, false⟩, false⟩ : Input)
        = (⟨o, ⟨t0, false, true, t1, false⟩, false⟩, []) := by
    intro t ht
    refine tick_skip_waiting _ t rfl ?_
    show ¬ t > t1 + o.double_press_threshold
    have := h2 t ht
    omega
  have s3 : stepA (Act.down t2) (⟨o, ⟨t0, false, true, t1, false⟩, false⟩ : Input)
      = (⟨o, ⟨t2, false, true, t1, true⟩, false⟩, []) := by
    simp [stepA, down, hro]
  have k3 : ∀ t ∈ ts3,
      tick t (⟨o, ⟨t2, false, true, t1, true⟩, false⟩ : Input)
        = (⟨o, ⟨t2, false, true, t1, true⟩, false⟩, []) := by
    intro t ht
    refine tick_skip_held_cond _ t rfl fun hen => ?_
    show ¬ t > t2 + o.long_press_threshold
    have := h3 t ht hen
    omega
  have s4 : stepA (Act.up t3 true) (⟨o, ⟨t2, false, true, t1, true⟩, false⟩ : Input)
      = (⟨o, ⟨t2, false, false, t1, false⟩, false⟩, [Press.double]) := by
    simp [stepA, up, release, hdp]
  have k4 : ∀ t ∈ ts4,
      tick t (⟨o, ⟨t2, false, false, t1, false⟩, false⟩ : Input)
        = (⟨o, ⟨t2, false, false, t1, false⟩, false⟩, []) :=
    fun t _ => tick_skip_idle _ t rfl rfl
  simp only [run_cons, s1, List.nil_append]
  rw [run_ticks_skip ts1 _ _ k1]
  simp only [run_cons, s2, List.nil_append]
  rw [run_ticks_skip ts2 _ _ k2]
  simp only [run_cons, s3, List.nil_append]
  rw [run_ticks_skip ts3 _ _ k3]
  simp only [run_cons, s4]
  rw [run_ticks_noop ts4 _ k4]
  rfl

/-- Witness for claim C5 on a concrete four-edge sequence with interleaved
ticks, default thresholds. -/
theorem C5_witness :
    (run (Act.down 0 :: (List.map Act.tick [5] ++ (Act.up 10 true ::
        (List.map Act.tick [20] ++ (Act.down 50 :: (List.map Act.tick [55]
        ++ (Act.up 60 true :: List.map Act.tick [200])))))))
      (initInput (mkOpts {}))).2 = [Press.double] :=
  C5_clean_double_press (mkOpts {}) 0 10 50 60 [5] [20] [55] [200]
    rfl rfl (by decide) (by decide) (by decide) (by decide)

/-- Claim C6: with double press enabled and repeat disabled, a lone press
released before the long-press threshold, followed by no second press, emits
exactly one `single`: ticks inside the double-press window emit nothing, the
first tick past the window emits the `single`, and any number of later ticks
emit nothing more. -/
theorem C6_lone_press_single (o : Opts) (t0 t1 tq : Int)
    (ts1 tsA tsB : List Int)
    (hdp : o.double_press_enabled = true)
    (hro : o.repeatOn = false)
    (h1 : ∀ t ∈ ts1, t ≤ t1)
    (hrel : t1 ≤ t0 + o.long_press_threshold)
    (hA : ∀ t ∈ tsA, t ≤ t1 + o.double_press_threshold)
    (htq : tq > t1 + o.double_press_threshold) :
    (run (Act.down t0 :: (ts1.map Act.tick ++ (Act.up t1 true :: (tsA.map Act.tick
        ++ (Act.tick tq :: tsB.map Act.tick)))))
      (initInput o)).2 = [Press.single] := by
  have s1 : stepA (Act.down t0) (initInput o)
      = (⟨o, ⟨t0, false, false, 0, true⟩, false⟩, []) := by
    simp [stepA, down, initInput, initClick, hro]
  have k1 : ∀ t ∈ ts1,
      tick t (⟨o, ⟨t0, false, false, 0, true⟩, false⟩ : Input)
        = (⟨o, ⟨t0, false, false, 0, true⟩, false⟩, []) := by
    intro t ht
    refine tick_skip_held _ t rfl ?_
    show ¬ t > t0 + o.long_press_threshold
    have := h1 t ht
    omega
  have s2 : stepA (Act.up t1 true) (⟨o, ⟨t0, false, false, 0, true⟩, false⟩ : Input)
      = (⟨o, ⟨t0, false, true, t1, false⟩, false⟩, []) := by
    simp [stepA, up, release, hdp]
  have kA : ∀ t ∈ tsA,
      tick t (⟨o, ⟨t0, false, true, t1, false⟩, false⟩ : Input)
        = (⟨o, ⟨t0, false, true, t1, false⟩, false⟩, []) := by
    intro t ht
    refine tick_skip_waiting _ t rfl ?_
    show ¬ t > t1 + o.double_press_threshold
    have := hA t ht
    omega
  have sQ : stepA (Act.tick tq) (⟨o, ⟨t0, false, true, t1, false⟩, false⟩ : Input)
      = (⟨o, ⟨t0, false, false, t1, false⟩, false⟩, [Press.single]) := by
    simp [stepA, tick, hdp, htq]
  have kB : ∀ t ∈ tsB,
      tick t (⟨o, ⟨t0, false, false, t1, false⟩, false⟩ : Input)
        = (⟨o, ⟨t0, false, false, t1, false⟩, false⟩, []) :=
    fun t _ => tick_skip_idle _ t rfl rfl
  simp only [run_cons, s1, List.nil_append]
  rw [run_ticks_skip ts1 _ _ k1]
  simp only [run_cons, s2, List.nil_append]
  rw [run_ticks_skip tsA _ _ kA]
  simp only [run_cons, sQ]
  rw [run_ticks_noop tsB _ kB]
  rfl

/-- Witness for claim C6 on a concrete lone press with ticks inside and past
the double-press window, default thresholds. -/
theorem C6_witness :
    (run (Act.down 0 :: (List.map Act.tick [5] ++ (Act.up 10 true ::
        (List.map Act.tick [50, 100] ++ (Act.tick 111 :: List.map Act.tick [400])))))
      (initInput (mkOpts {}))).2 = [Press.single] :=
  C6_lone_press_single (mkOpts {}) 0 10 111 [5] [50, 100] [400]
    rfl rfl (by decide) (by decide) (by decide) (by decide)

/-- Options whose four threshold values are all nonpositive. -/
def uC9 : UserOpts :=
  { long_press_threshold := some 0
    double_press_threshold := some (-5)
    repeat_init_delay := some 0
    repeat_interval := some (-1) }

/-- Claim C9 (counterexample): construction with every threshold nonpositive
is not rejected — the constructor only merges the options with the defaults,
and the fully merged configuration stores the nonpositive values verbatim. -/
theorem C9_counterexample_no_rejection :
    mkOpts uC9 =
      { double_press_enabled := true
        long_press_enabled := true
        long_press_threshold := 0
        double_press_threshold := -5
        repeat_press_enabled := false
        repeat_fire_immediate := true
        repeat_override_long := true
        repeat_init_delay := 0
        repeat_interval := -1
        repeat_enabled := none } := rfl

/-- Claim C9 (amended): construction performs no threshold validation at all.
For every option set — positive, zero or negative thresholds alike — the
constructor succeeds and stores each given threshold (or its default when
absent) unchanged. -/
theorem C9_amended_no_validation (u : UserOpts) :
    (mkOpts u).long_press_threshold = u.long_press_threshold.getD 500 ∧
    (mkOpts u).double_press_threshold = u.double_press_threshold.getD 100 ∧
    (mkOpts u).repeat_init_delay = u.repeat_init_delay.getD 600 ∧
    (mkOpts u).repeat_interval = u.repeat_interval.getD 130 := by
  cases h : u.has_double_press <;> simp [mkOpts, h]

/-- Claim C10: no default defines `repeat_enabled`, the field the operations
actually consult; so an instance constructed with `repeat_press_enabled` true
but no setter call has `repeat_enabled` still undefined, and `down` emits no
immediate `single` and arms no repeat timer. -/
theorem C10_repeat_press_enabled_unread (u : UserOpts) (now : Int)
    (_hrp : u.repeat_press_enabled = some true)
    (hre : u.repeat_enabled = none) :
    (mkOpts u).repeat_enabled = none ∧
    (down now (mkInput u)).2 = [] ∧
    (down now (mkInput u)).1.repeat_timer_armed = false := by
  have h1 : (mkOpts u).repeat_enabled = none := by
    cases h : u.has_double_press <;> simp [mkOpts, h, hre]
  have h2 : (mkOpts u).repeatOn = false := by
    simp [Opts.repeatOn, h1]
  exact ⟨h1, by simp [down, mkInput, h2], by simp [down, mkInput, h2]⟩

/-- Options used for the concrete witness of claim C10. -/
def uC10 : UserOpts := { repeat_press_enabled := some true }

/-- Witness for claim C10 at a concrete instance with `repeat_press_enabled`
set but no setter call. -/
theorem C10_witness :
    (mkOpts uC10).repeat_enabled = none ∧
    (down 5 (mkInput uC10)).2 = [] ∧
    (down 5 (mkInput uC10)).1.repeat_timer_armed = false :=
  C10_repeat_press_enabled_unread uC10 5 rfl rfl

end UxProto
